import Mathlib

/-!
# Verification of the comando device hub core (`src/comando/controller/core.py`)

Shallow embedding of the registry / sensor-cache / event engine:

* the sensor read path (`SensorProperty.__get__` / the inner `async_get`,
  with `should_use_cache`, the `asyncio.wait_for` timeout and the
  change-detection cache update),
* the sensor write path (`SensorProperty.__set__`),
* `Controller.register_device` with Python set-membership semantics
  (`__hash__` from `identifier`, default identity `__eq__`),
* `Controller.start` (connect loop with per-device exception isolation),
* `Controller.subscribe` / `Controller.unsubscribe` on the
  `event_subscribers` dict-of-sets.

Time (`time.monotonic()`) is modelled by `ℚ`; sensor values by a type `V`
with decidable equality (Python `!=` on values); driver exceptions by a
type `E`.  A single sensor's cache slot (`cache[instance_key]`) is an
`Option (V × ℚ)` holding `(value, last_read_timestamp)`.
-/

set_option linter.unusedSectionVars false
set_option linter.unusedVariables false

namespace Comando

variable {V E : Type} [DecidableEq V]

/-- Result of one sensor read, as seen by the caller of
`SensorProperty.__get__`: a value, a `TimeoutError` raised from
`asyncio.TimeoutError`, or an exception propagated from the underlying
read function. -/
inductive ReadResult (V E : Type) where
  | ok (v : V)
  | sensorTimeout
  | raises (e : E)
deriving DecidableEq, Repr

/-- Behaviour of one call to the underlying read function
(`get_sensor_value()`): the outcome it would complete with, and how long
it takes.  `asyncio.wait_for` turns a completion slower than the
configured timeout into a `TimeoutError`. -/
structure DriverCall (V E : Type) where
  outcome : Except E V
  duration : ℚ

/-- Everything one execution of `async_get` produces: the result returned
or raised to the caller, the cache slot afterwards, the
`"{name}_changed"` events emitted via `raise_event`, and whether the
underlying read function was invoked. -/
structure ReadOutput (V E : Type) where
  result : ReadResult V E
  cache : Option (V × ℚ)
  events : List (String × V)
  driverCalled : Bool

/-- `should_use_cache` from `async_get`: `False` when the effective TTL is
`None` or the instance key is absent, else `(current_time - last_time) <
effective_ttl`. -/
def should_use_cache (effective_ttl : Option ℚ) (cache : Option (V × ℚ))
    (current_time : ℚ) : Bool :=
  match effective_ttl with
  | none => false
  | some ttl =>
    match cache with
    | none => false
    | some (_, last_time) => decide (current_time - last_time < ttl)

/-- The `asyncio.wait_for` guard: with a configured timeout `t`, a driver
call whose duration exceeds `t` is cancelled and surfaces as
`asyncio.TimeoutError`; with no timeout the call is awaited directly. -/
def timed_out (effective_timeout : Option ℚ) (duration : ℚ) : Bool :=
  match effective_timeout with
  | none => false
  | some t => decide (t < duration)

/-- The non-cached tail of `async_get`: run the underlying read under the
optional timeout; on success compare with the cached value, update the
cache with the *pre-read* `current_time`, and emit a
`"{name}_changed"` event exactly when the value is new or changed; on
`TimeoutError` re-raise as the sensor timeout error; any other exception
propagates.  The cache is only written on the success path. -/
def fresh_read (name : String) (effective_timeout : Option ℚ)
    (cache : Option (V × ℚ)) (current_time : ℚ)
    (driver : DriverCall V E) : ReadOutput V E :=
  if timed_out effective_timeout driver.duration then
    { result := ReadResult.sensorTimeout, cache := cache, events := [],
      driverCalled := true }
  else
    match driver.outcome with
    | Except.error e =>
      { result := ReadResult.raises e, cache := cache, events := [],
        driverCalled := true }
    | Except.ok current_value =>
      let changed : Bool :=
        match cache with
        | none => true
        | some (last_value, _) => decide (last_value ≠ current_value)
      { result := ReadResult.ok current_value,
        cache := some (current_value, current_time),
        events := if changed then [(name ++ "_changed", current_value)] else [],
        driverCalled := true }

/-- `async_get` from `SensorProperty.__get__`: return the cached value
when `should_use_cache()` holds (no I/O, no event), otherwise perform a
fresh read.  `current_time = time.monotonic()` is captured once, before
the underlying read is invoked.  The `none` branch under a positive
cache test is unreachable, since `should_use_cache` demands a cache
entry. -/
def async_get (name : String) (effective_ttl effective_timeout : Option ℚ)
    (cache : Option (V × ℚ)) (current_time : ℚ)
    (driver : DriverCall V E) : ReadOutput V E :=
  if should_use_cache effective_ttl cache current_time then
    match cache with
    | some (last_value, last_time) =>
      { result := ReadResult.ok last_value,
        cache := some (last_value, last_time), events := [],
        driverCalled := false }
    | none => fresh_read name effective_timeout cache current_time driver
  else
    fresh_read name effective_timeout cache current_time driver

/-- Outcome of `SensorProperty.__set__`: whether it succeeded (`False`
models the `AttributeError` raised when no setter is configured), the
cache slot afterwards, and whether the underlying write function ran. -/
structure SetOutput (V : Type) where
  ok : Bool
  cache : Option (V × ℚ)
  writerCalled : Bool

/-- `SensorProperty.__set__`: with no `fset`, raise `AttributeError`
before touching anything; otherwise call `fset` and delete the sensor's
cache entry if present. -/
def sensor_set (hasWriter : Bool) (cache : Option (V × ℚ)) : SetOutput V :=
  if hasWriter then
    { ok := true, cache := none, writerCalled := true }
  else
    { ok := false, cache := cache, writerCalled := false }

/-- A sequence of reads of one sensor, each given by its
`time.monotonic()` reading and its driver behaviour, threaded through the
cache slot; collects all events emitted along the way. -/
def read_seq (name : String) (effective_ttl effective_timeout : Option ℚ) :
    List (ℚ × DriverCall V E) → Option (V × ℚ) →
      Option (V × ℚ) × List (String × V)
  | [], cache => (cache, [])
  | (t, driver) :: rest, cache =>
    let o := async_get name effective_ttl effective_timeout cache t driver
    let r := read_seq name effective_ttl effective_timeout rest o.cache
    (r.1, o.events ++ r.2)

/-! ## Registry (`Controller.register_device`, `Controller.start`)

A registered device object.  `objId` models Python object identity
(`id(obj)`); `adheresProtocol` models the combined
`isinstance(device, DeviceProtocol) and hasattr(device, "_device_config")`
check.  The `@device` decorator installs
`__hash__ = hash(self.identifier)` but installs no `__eq__`, so equality
between device objects is Python's default: object identity. -/

structure Device where
  objId : Nat
  identifier : String
  adheresProtocol : Bool
deriving DecidableEq, Repr

/-- `__hash__` installed by the `@device` decorator:
`hash(self.identifier)`.  Python string hashes are modelled injectively
by the string itself. -/
def deviceHash (d : Device) : String := d.identifier

/-- Python's default `__eq__` (object identity), which the `@device`
decorator does not override. -/
def pyIs (a b : Device) : Bool := a.objId == b.objId

/-- Membership in the Python set `self.devices`: some element of the set
hashes equal to the candidate and compares equal to it. -/
def pySetContains (s : List Device) (d : Device) : Bool :=
  s.any (fun x => deviceHash x == deviceHash d && pyIs x d)

/-- Python `str.replace("_", "")`. -/
def pyReplaceUnderscore (s : String) : String :=
  String.mk (s.data.filter (fun c => c != '_'))

/-- The ASCII fragment of Python `str.isalnum()`: nonempty and every
character alphanumeric.  CPython's `isalnum` additionally accepts
Unicode alphanumerics (e.g. `'é'`), which this definition does not
capture; it coincides with CPython exactly on strings of ASCII
characters (`c.toNat < 128`, where CPython's alphanumerics are
precisely `[0-9A-Za-z]`).  Theorems that quantify over identifiers
therefore carry an explicit ASCII hypothesis, and concrete evaluations
use ASCII inputs only. -/
def pyIsalnum (s : String) : Bool :=
  !s.data.isEmpty && s.data.all (fun c => c.isAlphanum)

/-- The regex `^[A-Za-z0-9_]+$` from the spec, as a predicate on ASCII
strings: nonempty and every character alphanumeric or underscore. -/
def matchesIdentRegex (s : String) : Bool :=
  !s.data.isEmpty && s.data.all (fun c => c.isAlphanum || c == '_')

/-- The three exceptions `Controller.register_device` can raise:
`TypeError` (protocol/decorator check), `ValueError` for invalid
identifier characters, `ValueError` for a duplicate registration. -/
inductive RegisterError where
  | typeError
  | invalidIdentifier
  | duplicate
deriving DecidableEq, Repr

/-- `Controller.register_device`: protocol check, then
`device.identifier.replace("_", "").isalnum()` validation, then the
`device in self.devices` duplicate check, then `self.devices.add(device)`.
Returns the raised exception (if any) together with the device set
afterwards. -/
def register_device (devices : List Device) (d : Device) :
    Option RegisterError × List Device :=
  if !d.adheresProtocol then
    (some RegisterError.typeError, devices)
  else if !(pyIsalnum (pyReplaceUnderscore d.identifier)) then
    (some RegisterError.invalidIdentifier, devices)
  else if pySetContains devices d then
    (some RegisterError.duplicate, devices)
  else
    (none, devices ++ [d])

/-- `Controller.start`: iterate over the registered devices, `await
device.connect()` inside `try`, catching any exception and logging a
warning.  Returns the devices that reached connected state and the log
messages for those that failed. -/
def start (connectResult : Device → Except String Unit) :
    List Device → List Device × List String
  | [] => ([], [])
  | d :: rest =>
    let r := start connectResult rest
    match connectResult d with
    | Except.ok _ => (d :: r.1, r.2)
    | Except.error e =>
      (r.1, ("Failed to connect device " ++ d.identifier ++ ": " ++ e) :: r.2)

/-! ## Event subscriptions (`Controller.subscribe` / `unsubscribe`)

`event_subscribers` is a dict from `"{device_name}.{event_name}"` to a
set of callbacks, modelled as an insertion-ordered association list of
duplicate-free callback lists.  Callbacks are identified by a `Nat`
handle; `isCoroutine` models `inspect.iscoroutinefunction(callback)`. -/

/-- Dict lookup: value of the first (and only) entry with the key. -/
def alLookup : List (String × List Nat) → String → Option (List Nat)
  | [], _ => none
  | (k, v) :: rest, key => if k == key then some v else alLookup rest key

/-- Dict store `tbl[key] = v`: replace the entry in place, or append. -/
def alSet : List (String × List Nat) → String → List Nat →
    List (String × List Nat)
  | [], key, v => [(key, v)]
  | (k, w) :: rest, key, v =>
    if k == key then (key, v) :: rest else (k, w) :: alSet rest key v

/-- Dict delete `del tbl[key]`. -/
def alErase : List (String × List Nat) → String →
    List (String × List Nat)
  | [], _ => []
  | (k, w) :: rest, key =>
    if k == key then rest else (k, w) :: alErase rest key

/-- Python `set.add`: no-op when the element is present. -/
def pySetAdd (s : List Nat) (cb : Nat) : List Nat :=
  if cb ∈ s then s else s ++ [cb]

/-- Python `set.discard`: remove the element when present. -/
def pySetDiscard (s : List Nat) (cb : Nat) : List Nat :=
  s.filter (fun x => x != cb)

/-- The subscription key `f"{device_name}.{event_name}"`. -/
def subKey (device_name event_name : String) : String :=
  device_name ++ "." ++ event_name

/-- `Controller.subscribe`: reject a non-async callback with
`ValueError`; otherwise ensure the key maps to a set and add the
callback to it. -/
def subscribe (tbl : List (String × List Nat)) (device_name event_name : String)
    (cb : Nat) (isCoroutine : Bool) :
    Except Unit (List (String × List Nat)) :=
  if !isCoroutine then
    Except.error ()
  else
    let key := subKey device_name event_name
    let cur := match alLookup tbl key with
      | none => []
      | some s => s
    Except.ok (alSet tbl key (pySetAdd cur cb))

/-- `Controller.unsubscribe`: if the key exists, discard the callback and
delete the key when its set becomes empty. -/
def unsubscribe (tbl : List (String × List Nat))
    (device_name event_name : String) (cb : Nat) :
    List (String × List Nat) :=
  let key := subKey device_name event_name
  match alLookup tbl key with
  | none => tbl
  | some s =>
    let rest := pySetDiscard s cb
    if rest.isEmpty then alErase tbl key else alSet tbl key rest

/-! ## Helper lemmas about the read path -/

/-- A fresh read always invokes the underlying read function, whatever
its outcome. -/
theorem fresh_read_driverCalled (name : String) (eto : Option ℚ)
    (c : Option (V × ℚ)) (t : ℚ) (d : DriverCall V E) :
    (fresh_read name eto c t d).driverCalled = true := by
  unfold fresh_read
  by_cases h : timed_out eto d.duration = true
  · simp [h]
  · cases hq : d.outcome <;> simp [h, hq]

/-- With no cache entry, `should_use_cache` is `False`. -/
theorem should_use_cache_none_cache (ettl : Option ℚ) (t : ℚ) :
    should_use_cache (V := V) ettl none t = false := by
  cases ettl <;> rfl

/-- With no effective TTL, `should_use_cache` is `False`. -/
theorem should_use_cache_none_ttl (c : Option (V × ℚ)) (t : ℚ) :
    should_use_cache none c t = false := rfl

/-- When the cache test fails, `async_get` is exactly a fresh read. -/
theorem async_get_of_cache_miss (name : String) (ettl eto : Option ℚ)
    (c : Option (V × ℚ)) (t : ℚ) (d : DriverCall V E)
    (h : should_use_cache ettl c t = false) :
    async_get name ettl eto c t d = fresh_read name eto c t d := by
  simp [async_get, h]

/-- A read that invoked the underlying read function took the fresh-read
path (the cache-hit branch performs no I/O). -/
theorem async_get_of_driverCalled (name : String) (ettl eto : Option ℚ)
    (c : Option (V × ℚ)) (t : ℚ) (d : DriverCall V E)
    (h : (async_get name ettl eto c t d).driverCalled = true) :
    async_get name ettl eto c t d = fresh_read name eto c t d := by
  by_cases hc : should_use_cache ettl c t = true
  · cases c with
    | none => simp [async_get, hc]
    | some p => simp [async_get, hc] at h ⊢
  · simp [async_get, hc]

/-- A fresh read that returned `v` stored `(v, current_time)` in the
cache, with the pre-read timestamp. -/
theorem fresh_read_ok_cache (name : String) (eto : Option ℚ)
    (c : Option (V × ℚ)) (t : ℚ) (d : DriverCall V E) (v : V)
    (h : (fresh_read name eto c t d).result = ReadResult.ok v) :
    (fresh_read name eto c t d).cache = some (v, t) := by
  unfold fresh_read at h ⊢
  by_cases hto : timed_out eto d.duration = true
  · simp [hto] at h
  · cases hq : d.outcome with
    | error e => simp [hto, hq] at h
    | ok w => simp [hto, hq] at h ⊢; exact h

/-! ## Claim theorems -/

/-- C1: TTL correctness.  For a sensor with effective TTL `T`: after a
fresh successful read at time `t₁` returning `v`, a second read of the
same sensor at time `t₂`, while the entry's age satisfies
`t₂ - t₁ < T` and with no intervening write, returns the cached `v`,
does not invoke the underlying read function (so the driver is hit
exactly once across the two reads) and emits no event; and whenever no
cache entry exists or the effective TTL is `None`, a read always
invokes the underlying read function. -/
theorem ttl_cache_correct (name : String) (T : ℚ) (eto : Option ℚ)
    (c₀ : Option (V × ℚ)) (t₁ t₂ : ℚ) (d₁ d₂ : DriverCall V E) (v : V)
    (hfresh : (async_get name (some T) eto c₀ t₁ d₁).driverCalled = true)
    (hok : (async_get name (some T) eto c₀ t₁ d₁).result = ReadResult.ok v)
    (hage : t₂ - t₁ < T) :
    (async_get name (some T) eto
        (async_get name (some T) eto c₀ t₁ d₁).cache t₂ d₂).result
      = ReadResult.ok v
    ∧ (async_get name (some T) eto
        (async_get name (some T) eto c₀ t₁ d₁).cache t₂ d₂).driverCalled
      = false
    ∧ (async_get name (some T) eto
        (async_get name (some T) eto c₀ t₁ d₁).cache t₂ d₂).events = []
    ∧ (∀ (ettl2 eto2 : Option ℚ) (c : Option (V × ℚ)) (t : ℚ)
        (d : DriverCall V E), (c = none ∨ ettl2 = none) →
        (async_get name ettl2 eto2 c t d).driverCalled = true) := by
  have h1 : async_get name (some T) eto c₀ t₁ d₁ = fresh_read name eto c₀ t₁ d₁ :=
    async_get_of_driverCalled name (some T) eto c₀ t₁ d₁ hfresh
  have hc : (async_get name (some T) eto c₀ t₁ d₁).cache = some (v, t₁) := by
    rw [h1] at hok ⊢
    exact fresh_read_ok_cache name eto c₀ t₁ d₁ v hok
  have hsc : should_use_cache (some T) (some (v, t₁)) t₂ = true := by
    simp [should_use_cache]
    exact hage
  rw [hc]
  refine ⟨by simp [async_get, hsc], by simp [async_get, hsc],
    by simp [async_get, hsc], ?_⟩
  intro ettl2 eto2 c t d h
  rcases h with h | h <;> subst h
  · rw [async_get_of_cache_miss name ettl2 eto2 none t d
      (should_use_cache_none_cache ettl2 t)]
    exact fresh_read_driverCalled name eto2 none t d
  · rw [async_get_of_cache_miss name none eto2 c t d
      (should_use_cache_none_ttl c t)]
    exact fresh_read_driverCalled name eto2 c t d

/-- Witness for `ttl_cache_correct`: TTL 5, first read at time 0
returning 10 from an empty cache, second read at time 1 returns the
cached 10 even though its driver would return 99. -/
theorem ttl_cache_correct_witness :
    ((async_get "vol" (some 5) none (none : Option (ℤ × ℚ)) 0
        (DriverCall.mk (E := String) (Except.ok 10) 0)).driverCalled = true)
    ∧ ((async_get "vol" (some 5) none (none : Option (ℤ × ℚ)) 0
        (DriverCall.mk (E := String) (Except.ok 10) 0)).result
      = ReadResult.ok 10)
    ∧ ((1 : ℚ) - 0 < 5)
    ∧ (async_get "vol" (some 5) none
        (async_get "vol" (some 5) none (none : Option (ℤ × ℚ)) 0
          (DriverCall.mk (E := String) (Except.ok 10) 0)).cache 1
        (DriverCall.mk (E := String) (Except.ok 99) 0)).result
      = ReadResult.ok 10
    ∧ (async_get "vol" (some 5) none
        (async_get "vol" (some 5) none (none : Option (ℤ × ℚ)) 0
          (DriverCall.mk (E := String) (Except.ok 10) 0)).cache 1
        (DriverCall.mk (E := String) (Except.ok 99) 0)).driverCalled
      = false := by
  have h := ttl_cache_correct (V := ℤ) (E := String) "vol" 5 none none 0 1
    (DriverCall.mk (Except.ok 10) 0) (DriverCall.mk (Except.ok 99) 0) 10
    rfl rfl (by norm_num)
  exact ⟨rfl, rfl, by norm_num, h.1, h.2.1⟩

/-- C3: timeout enforcement.  A non-cached read whose underlying read
function does not complete within the configured effective timeout `T`
fails with the sensor timeout error, leaves the cache entry unchanged
and emits no event; a later read of the sensor starts from the same
cache state as if the timed-out read had never happened. -/
theorem sensor_timeout_no_poison (name : String) (ettl : Option ℚ) (T : ℚ)
    (c : Option (V × ℚ)) (t : ℚ) (d : DriverCall V E)
    (hsc : should_use_cache ettl c t = false)
    (hslow : T < d.duration) :
    (async_get name ettl (some T) c t d).result = ReadResult.sensorTimeout
    ∧ (async_get name ettl (some T) c t d).cache = c
    ∧ (async_get name ettl (some T) c t d).events = []
    ∧ (∀ (t2 : ℚ) (d2 : DriverCall V E),
        async_get name ettl (some T) (async_get name ettl (some T) c t d).cache t2 d2
          = async_get name ettl (some T) c t2 d2) := by
  have hto : timed_out (some T) d.duration = true := by
    simp [timed_out]
    exact hslow
  rw [async_get_of_cache_miss name ettl (some T) c t d hsc]
  unfold fresh_read
  rw [hto]
  exact ⟨rfl, rfl, rfl, fun t2 d2 => rfl⟩

/-- Witness for `sensor_timeout_no_poison`: timeout 2, driver taking 3
seconds, prior cache entry `(7, 0)` read at time 10. -/
theorem sensor_timeout_no_poison_witness :
    (should_use_cache (some 1) (some ((7 : ℤ), (0 : ℚ))) 10 = false)
    ∧ ((2 : ℚ) < 3)
    ∧ (async_get "vol" (some 1) (some 2) (some ((7 : ℤ), (0 : ℚ))) 10
        (DriverCall.mk (E := String) (Except.ok 8) 3)).result
      = ReadResult.sensorTimeout
    ∧ (async_get "vol" (some 1) (some 2) (some ((7 : ℤ), (0 : ℚ))) 10
        (DriverCall.mk (E := String) (Except.ok 8) 3)).cache
      = some (7, 0) := by
  have hsc : should_use_cache (some (1 : ℚ)) (some ((7 : ℤ), (0 : ℚ))) 10 = false := by
    norm_num [should_use_cache]
  have h := sensor_timeout_no_poison (V := ℤ) (E := String) "vol" (some 1) 2
    (some ((7 : ℤ), (0 : ℚ))) 10
    (DriverCall.mk (Except.ok 8) 3) hsc (by norm_num)
  exact ⟨hsc, by norm_num, h.1, h.2.1⟩

/-- C9: a non-cached read whose underlying read function raises an
exception (and which did not exceed a configured timeout) propagates
that same exception to the caller, creates or updates no cache entry,
and emits no event. -/
theorem read_error_propagates (name : String) (ettl eto : Option ℚ)
    (c : Option (V × ℚ)) (t : ℚ) (d : DriverCall V E) (e : E)
    (hsc : should_use_cache ettl c t = false)
    (hto : timed_out eto d.duration = false)
    (herr : d.outcome = Except.error e) :
    (async_get name ettl eto c t d).result = ReadResult.raises e
    ∧ (async_get name ettl eto c t d).cache = c
    ∧ (async_get name ettl eto c t d).events = [] := by
  rw [async_get_of_cache_miss name ettl eto c t d hsc]
  unfold fresh_read
  rw [hto, herr]
  exact ⟨rfl, rfl, rfl⟩

/-- Witness for `read_error_propagates`: empty cache, no timeout, driver
raising `"boom"`. -/
theorem read_error_propagates_witness :
    (should_use_cache (some 5) (none : Option (ℤ × ℚ)) 0 = false)
    ∧ (timed_out none (1 : ℚ) = false)
    ∧ (async_get "vol" (some 5) none (none : Option (ℤ × ℚ)) 0
        (DriverCall.mk (Except.error "boom") 1)).result
      = ReadResult.raises "boom"
    ∧ (async_get "vol" (some 5) none (none : Option (ℤ × ℚ)) 0
        (DriverCall.mk (Except.error "boom") 1)).cache = none := by
  have h := read_error_propagates (V := ℤ) (E := String) "vol" (some 5) none
    none 0 (DriverCall.mk (Except.error "boom") 1) "boom" rfl rfl rfl
  exact ⟨rfl, rfl, h.1, h.2.1⟩

/-- C10: the timestamp stored by a fresh successful read is
`current_time`, captured before the underlying read function runs, not
after: the stored `last_read_timestamp` equals the read-start time `t`
whatever the driver's duration `d.duration` was, so a freshness check at
time `t + d.duration + δ` (i.e. `δ` after the read completed) succeeds
iff `d.duration + δ < T` — the window is shortened by the time the
underlying read took. -/
theorem cache_timestamp_is_read_start (name : String) (ettl eto : Option ℚ)
    (c : Option (V × ℚ)) (t : ℚ) (d : DriverCall V E) (v : V)
    (hsc : should_use_cache ettl c t = false)
    (hto : timed_out eto d.duration = false)
    (hok : d.outcome = Except.ok v) :
    (async_get name ettl eto c t d).cache = some (v, t)
    ∧ (∀ (T δ : ℚ),
        should_use_cache (some T) (async_get name ettl eto c t d).cache
            (t + d.duration + δ)
          = decide (d.duration + δ < T)) := by
  have hc : (async_get name ettl eto c t d).cache = some (v, t) := by
    rw [async_get_of_cache_miss name ettl eto c t d hsc]
    apply fresh_read_ok_cache name eto c t d v
    simp [fresh_read, hto, hok]
  refine ⟨hc, fun T δ => ?_⟩
  rw [hc]
  simp only [should_use_cache]
  rw [show t + d.duration + δ - t = d.duration + δ by ring]

/-- Witness for `cache_timestamp_is_read_start`: a read starting at time
0 whose driver takes 4 time units; with TTL 5, the entry is already
stale 2 units after the read completed (4 + 2 ≥ 5). -/
theorem cache_timestamp_is_read_start_witness :
    (should_use_cache (some 5) (none : Option (ℤ × ℚ)) 0 = false)
    ∧ (timed_out none (4 : ℚ) = false)
    ∧ (async_get "vol" (some 5) none (none : Option (ℤ × ℚ)) 0
        (DriverCall.mk (E := String) (Except.ok 10) 4)).cache = some (10, 0)
    ∧ should_use_cache (some 5)
        (async_get "vol" (some 5) none (none : Option (ℤ × ℚ)) 0
          (DriverCall.mk (E := String) (Except.ok 10) 4)).cache
        ((0 : ℚ) + 4 + 2)
      = decide ((4 : ℚ) + 2 < 5) := by
  have h := cache_timestamp_is_read_start (V := ℤ) (E := String) "vol" (some 5)
    none none 0 (DriverCall.mk (Except.ok 10) 4) 10 rfl rfl rfl
  exact ⟨rfl, rfl, h.1, h.2 5 2⟩

/-- Helper for C2: starting from a cache entry already holding `v`, a
sequence of reads whose drivers all return `v` within any configured
timeout emits no event at all, and the cache keeps holding `v`. -/
theorem read_seq_same_value (name : String) (ettl eto : Option ℚ) (v : V)
    (reads : List (ℚ × DriverCall V E)) :
    (∀ p ∈ reads, p.2.outcome = Except.ok v
      ∧ timed_out eto p.2.duration = false) →
    ∀ t₀ : ℚ, (read_seq name ettl eto reads (some (v, t₀))).2 = []
      ∧ ∃ s, (read_seq name ettl eto reads (some (v, t₀))).1 = some (v, s) := by
  induction reads with
  | nil => exact fun _ t₀ => ⟨rfl, t₀, rfl⟩
  | cons p rest ih =>
    intro hall t₀
    obtain ⟨t, d⟩ := p
    obtain ⟨hok0, hto0⟩ := hall (t, d) (List.mem_cons_self (t, d) rest)
    have hok : d.outcome = Except.ok v := hok0
    have hto : timed_out eto d.duration = false := hto0
    have hall2 : ∀ q ∈ rest, q.2.outcome = Except.ok v
        ∧ timed_out eto q.2.duration = false :=
      fun q hq => hall q (List.mem_cons_of_mem (t, d) hq)
    have hhead : (async_get name ettl eto (some (v, t₀)) t d).events = []
        ∧ ∃ s, (async_get name ettl eto (some (v, t₀)) t d).cache
          = some (v, s) := by
      by_cases hsc : should_use_cache ettl (some (v, t₀)) t = true
      · exact ⟨by simp [async_get, hsc], t₀, by simp [async_get, hsc]⟩
      · rw [async_get_of_cache_miss name ettl eto (some (v, t₀)) t d
          (by simpa using hsc)]
        exact ⟨by simp [fresh_read, hto, hok], t,
          by simp [fresh_read, hto, hok]⟩
    obtain ⟨hev, s, hc⟩ := hhead
    obtain ⟨hev2, s2, hc2⟩ := ih hall2 s
    constructor
    · show ((read_seq name ettl eto rest
          (async_get name ettl eto (some (v, t₀)) t d).cache).1,
        (async_get name ettl eto (some (v, t₀)) t d).events
          ++ (read_seq name ettl eto rest
            (async_get name ettl eto (some (v, t₀)) t d).cache).2).2 = []
      rw [hev, hc]
      simpa using hev2
    · refine ⟨s2, ?_⟩
      show ((read_seq name ettl eto rest
          (async_get name ettl eto (some (v, t₀)) t d).cache).1,
        (async_get name ettl eto (some (v, t₀)) t d).events
          ++ (read_seq name ettl eto rest
            (async_get name ettl eto (some (v, t₀)) t d).cache).2).1
        = some (v, s2)
      rw [hc]
      exact hc2

/-- C2: change-only events.  For a non-cached successful read returning
`v` at time `t`: if no prior cache entry exists or the cached value
differs from `v`, the cache is updated to `(v, t)` and exactly one
`"{name}_changed"` event carrying `v` is emitted; if the cached value
equals `v`, only the timestamp is updated and no event is emitted.
Hence a whole sequence of reads all yielding the same value `v`,
starting from an empty cache, emits exactly one change event. -/
theorem change_only_events (name : String) (ettl eto : Option ℚ)
    (c : Option (V × ℚ)) (t : ℚ) (d : DriverCall V E) (v : V)
    (hsc : should_use_cache ettl c t = false)
    (hto : timed_out eto d.duration = false)
    (hok : d.outcome = Except.ok v)
    (reads : List (ℚ × DriverCall V E))
    (hall : ∀ p ∈ reads, p.2.outcome = Except.ok v
      ∧ timed_out eto p.2.duration = false) :
    ((∀ w s, c = some (w, s) → w ≠ v) →
        (async_get name ettl eto c t d).cache = some (v, t)
        ∧ (async_get name ettl eto c t d).events = [(name ++ "_changed", v)])
    ∧ (∀ s, c = some (v, s) →
        (async_get name ettl eto c t d).cache = some (v, t)
        ∧ (async_get name ettl eto c t d).events = [])
    ∧ (read_seq name ettl eto ((t, d) :: reads) none).2
        = [(name ++ "_changed", v)] := by
  rw [async_get_of_cache_miss name ettl eto c t d hsc]
  refine ⟨?_, ?_, ?_⟩
  · intro hunch
    cases hc : c with
    | none => subst hc; constructor <;> simp [fresh_read, hto, hok]
    | some p =>
      obtain ⟨w, s⟩ := p
      subst hc
      have hw : w ≠ v := hunch w s rfl
      constructor <;> simp [fresh_read, hto, hok, hw]
  · intro s hs
    subst hs
    constructor <;> simp [fresh_read, hto, hok]
  · have hfirst : (async_get name ettl eto none t d).events
        = [(name ++ "_changed", v)]
      ∧ (async_get name ettl eto none t d).cache = some (v, t) := by
      rw [async_get_of_cache_miss name ettl eto none t d
        (should_use_cache_none_cache ettl t)]
      constructor <;> simp [fresh_read, hto, hok]
    obtain ⟨hfe, hfc⟩ := hfirst
    obtain ⟨hre, _, _⟩ := read_seq_same_value name ettl eto v reads hall t
    show ((read_seq name ettl eto reads
        (async_get name ettl eto none t d).cache).1,
      (async_get name ettl eto none t d).events
        ++ (read_seq name ettl eto reads
          (async_get name ettl eto none t d).cache).2).2
      = [(name ++ "_changed", v)]
    rw [hfe, hfc, hre]
    rfl

/-- Witness for `change_only_events`: two reads of an unchanged value 10
from an empty cache emit exactly the one event `("vol_changed", 10)`. -/
theorem change_only_events_witness :
    (should_use_cache (some 5) (none : Option (ℤ × ℚ)) 0 = false)
    ∧ (timed_out none (0 : ℚ) = false)
    ∧ ((async_get "vol" (some 5) none (none : Option (ℤ × ℚ)) 0
        (DriverCall.mk (E := String) (Except.ok 10) 0)).events
      = [("vol" ++ "_changed", 10)])
    ∧ (read_seq "vol" (some 5) none
        [((0 : ℚ), DriverCall.mk (E := String) (Except.ok (10 : ℤ)) 0),
         ((1 : ℚ), DriverCall.mk (Except.ok 10) 0)] none).2
      = [("vol" ++ "_changed", 10)] := by
  have h := change_only_events (V := ℤ) (E := String) "vol" (some 5) none
    none 0 (DriverCall.mk (Except.ok 10) 0) 10 rfl rfl rfl
    [((1 : ℚ), DriverCall.mk (Except.ok 10) 0)]
    (by intro p hp; simp at hp; subst hp; exact ⟨rfl, rfl⟩)
  refine ⟨rfl, rfl, ?_, h.2.2⟩
  exact (h.1 (fun w s hw => Option.noConfusion hw)).2

/-- C6: writes.  For a sensor with a configured writer, a write invokes
the underlying write function and removes the sensor's cache entry, so
the next read invokes the underlying read function; for a sensor
without a writer, a write raises the `AttributeError` without invoking
any writer and leaves the cache entry unchanged. -/
theorem write_invalidates_cache (name : String) (ettl eto : Option ℚ)
    (c : Option (V × ℚ)) (t : ℚ) (d : DriverCall V E) :
    ((sensor_set true c).ok = true
      ∧ (sensor_set true c).writerCalled = true
      ∧ (sensor_set true c).cache = none
      ∧ (async_get name ettl eto (sensor_set true c).cache t d).driverCalled
        = true)
    ∧ ((sensor_set false c).ok = false
      ∧ (sensor_set false c).writerCalled = false
      ∧ (sensor_set false c).cache = c) := by
  refine ⟨⟨rfl, rfl, rfl, ?_⟩, rfl, rfl, rfl⟩
  show (async_get name ettl eto none t d).driverCalled = true
  rw [async_get_of_cache_miss name ettl eto none t d
    (should_use_cache_none_cache ettl t)]
  exact fresh_read_driverCalled name eto none t d

/-- C7: fault isolation in `Controller.start`.  A device is connected
after `start` exactly when it is registered and its own `connect()`
succeeds — another device's `connect()` raising an exception is caught,
logged, and never prevents it; and every registered device is attempted
(each contributes either a connection or a logged warning). -/
theorem start_fault_isolation (connectResult : Device → Except String Unit)
    (devices : List Device) (d : Device) :
    (d ∈ (start connectResult devices).1
      ↔ (d ∈ devices ∧ connectResult d = Except.ok ()))
    ∧ (start connectResult devices).1.length
        + (start connectResult devices).2.length = devices.length := by
  induction devices with
  | nil => simp [start]
  | cons a rest ih =>
    cases h : connectResult a with
    | ok u =>
      cases u
      constructor
      · simp only [start, h, List.mem_cons]
        constructor
        · rintro (rfl | hm)
          · exact ⟨Or.inl rfl, h⟩
          · obtain ⟨h1, h2⟩ := ih.1.mp hm
            exact ⟨Or.inr h1, h2⟩
        · rintro ⟨rfl | hm, hok⟩
          · exact Or.inl rfl
          · exact Or.inr (ih.1.mpr ⟨hm, hok⟩)
      · have h2 := ih.2
        simp only [start, h, List.length_cons]
        omega
    | error e =>
      constructor
      · simp only [start, h]
        constructor
        · intro hm
          obtain ⟨h1, h2⟩ := ih.1.mp hm
          exact ⟨List.mem_cons_of_mem a h1, h2⟩
        · rintro ⟨hm, hok⟩
          rcases List.mem_cons.mp hm with rfl | hm2
          · rw [h] at hok
            exact absurd hok (fun x => Except.noConfusion x)
          · exact ih.1.mpr ⟨hm2, hok⟩
      · have h2 := ih.2
        simp only [start, h, List.length_cons]
        omega

/-- Witness for `start_fault_isolation`: with `amp1` failing to connect
and `tv1` succeeding, `tv1` is still connected. -/
theorem start_fault_isolation_witness :
    (Device.mk 2 "tv1" true ∈
        (start
          (fun x => if x.objId == 1 then Except.error "unreachable"
            else Except.ok ())
          [Device.mk 1 "amp1" true, Device.mk 2 "tv1" true]).1
      ↔ (Device.mk 2 "tv1" true
            ∈ [Device.mk 1 "amp1" true, Device.mk 2 "tv1" true]
          ∧ (if (Device.mk 2 "tv1" true).objId == 1 then
              (Except.error "unreachable" : Except String Unit)
            else Except.ok ()) = Except.ok ()))
    ∧ Device.mk 2 "tv1" true ∈
        (start
          (fun x => if x.objId == 1 then Except.error "unreachable"
            else Except.ok ())
          [Device.mk 1 "amp1" true, Device.mk 2 "tv1" true]).1 := by
  have h := start_fault_isolation
    (fun x => if x.objId == 1 then Except.error "unreachable" else Except.ok ())
    [Device.mk 1 "amp1" true, Device.mk 2 "tv1" true]
    (Device.mk 2 "tv1" true)
  exact ⟨h.1, h.1.mpr ⟨by simp, rfl⟩⟩

/-! ## Helper lemmas about the subscription table -/

/-- Looking up a key just stored finds the stored value. -/
theorem alLookup_alSet (tbl : List (String × List Nat)) (key : String)
    (v : List Nat) : alLookup (alSet tbl key v) key = some v := by
  induction tbl with
  | nil => simp [alSet, alLookup]
  | cons p rest ih =>
    obtain ⟨k, w⟩ := p
    by_cases h : k = key
    · subst h
      simp [alSet, alLookup]
    · simp [alSet, alLookup, h, ih]

/-- Storing the same key twice keeps only the second store. -/
theorem alSet_alSet (tbl : List (String × List Nat)) (key : String)
    (v w : List Nat) : alSet (alSet tbl key v) key w = alSet tbl key w := by
  induction tbl with
  | nil => simp [alSet]
  | cons p rest ih =>
    obtain ⟨k, u⟩ := p
    by_cases h : k = key
    · subst h
      simp [alSet]
    · simp [alSet, h, ih]

/-- A key absent from the key list looks up to nothing. -/
theorem alLookup_eq_none_of_not_mem (tbl : List (String × List Nat))
    (key : String) (h : key ∉ tbl.map Prod.fst) : alLookup tbl key = none := by
  induction tbl with
  | nil => rfl
  | cons p rest ih =>
    obtain ⟨k, w⟩ := p
    simp only [List.map_cons, List.mem_cons, not_or] at h
    have hk : k ≠ key := fun e => h.1 e.symm
    simp [alLookup, hk, ih h.2]

/-- Deleting a key from a duplicate-free table makes it unfindable. -/
theorem alLookup_alErase_self (tbl : List (String × List Nat))
    (key : String) (hnd : (tbl.map Prod.fst).Nodup) :
    alLookup (alErase tbl key) key = none := by
  induction tbl with
  | nil => rfl
  | cons p rest ih =>
    obtain ⟨k, w⟩ := p
    simp only [List.map_cons, List.nodup_cons] at hnd
    by_cases h : k = key
    · subst h
      have he : alErase ((k, w) :: rest) k = rest := by simp [alErase]
      rw [he]
      exact alLookup_eq_none_of_not_mem rest k hnd.1
    · simp [alErase, h, alLookup, ih hnd.2]

/-- Adding an element makes it a member. -/
theorem mem_pySetAdd (s : List Nat) (cb : Nat) : cb ∈ pySetAdd s cb := by
  unfold pySetAdd
  by_cases h : cb ∈ s <;> simp [h]

/-- Adding a present element is a no-op (Python set semantics). -/
theorem pySetAdd_of_mem (s : List Nat) (cb : Nat) (h : cb ∈ s) :
    pySetAdd s cb = s := by
  simp [pySetAdd, h]

/-- C8: subscription set semantics.  Subscribing the same async callback
twice to the same `(device, event)` key yields the same table as
subscribing it once; and unsubscribing the last remaining callback of a
key (on a well-formed table, whose dict keys are duplicate-free) removes
the key from the table entirely. -/
theorem subscription_set_semantics (tbl : List (String × List Nat))
    (dev ev : String) (cb : Nat)
    (hnd : (tbl.map Prod.fst).Nodup) :
    ((subscribe tbl dev ev cb true).bind
        (fun u => subscribe u dev ev cb true) = subscribe tbl dev ev cb true)
    ∧ (∀ s, alLookup tbl (subKey dev ev) = some s → pySetDiscard s cb = [] →
        alLookup (unsubscribe tbl dev ev cb) (subKey dev ev) = none) := by
  constructor
  · show (Except.ok (alSet tbl (subKey dev ev)
        (pySetAdd (match alLookup tbl (subKey dev ev) with
          | none => [] | some s => s) cb))).bind
        (fun u => subscribe u dev ev cb true)
      = Except.ok (alSet tbl (subKey dev ev)
        (pySetAdd (match alLookup tbl (subKey dev ev) with
          | none => [] | some s => s) cb))
    set cur := (match alLookup tbl (subKey dev ev) with
      | none => [] | some s => s) with hcur
    show subscribe (alSet tbl (subKey dev ev) (pySetAdd cur cb)) dev ev cb true
      = Except.ok (alSet tbl (subKey dev ev) (pySetAdd cur cb))
    show Except.ok (alSet (alSet tbl (subKey dev ev) (pySetAdd cur cb))
        (subKey dev ev)
        (pySetAdd (match alLookup (alSet tbl (subKey dev ev) (pySetAdd cur cb))
            (subKey dev ev) with
          | none => [] | some s => s) cb))
      = Except.ok (alSet tbl (subKey dev ev) (pySetAdd cur cb))
    rw [alLookup_alSet tbl (subKey dev ev) (pySetAdd cur cb)]
    rw [pySetAdd_of_mem (pySetAdd cur cb) cb (mem_pySetAdd cur cb)]
    rw [alSet_alSet tbl (subKey dev ev) (pySetAdd cur cb) (pySetAdd cur cb)]
  · intro s hs hdisc
    simp only [unsubscribe, hs, hdisc, List.isEmpty_nil, if_true]
    exact alLookup_alErase_self tbl (subKey dev ev) hnd

/-- Witness for `subscription_set_semantics` on the one-key table
`{"amp1.vol_changed": {7}}`. -/
theorem subscription_set_semantics_witness :
    (([("amp1.vol_changed", [7])].map
        (Prod.fst (α := String) (β := List Nat))).Nodup)
    ∧ ((subscribe [("amp1.vol_changed", [7])] "amp1" "vol_changed" 7 true).bind
        (fun u => subscribe u "amp1" "vol_changed" 7 true)
      = subscribe [("amp1.vol_changed", [7])] "amp1" "vol_changed" 7 true)
    ∧ (alLookup [("amp1.vol_changed", [7])] (subKey "amp1" "vol_changed")
        = some [7])
    ∧ (pySetDiscard [7] 7 = [])
    ∧ (alLookup
        (unsubscribe [("amp1.vol_changed", [7])] "amp1" "vol_changed" 7)
        (subKey "amp1" "vol_changed") = none) := by
  have hnd : (([("amp1.vol_changed", [7])]).map
      (Prod.fst (α := String) (β := List Nat))).Nodup := by simp
  have hs : alLookup [("amp1.vol_changed", [7])] (subKey "amp1" "vol_changed")
      = some [7] := by
    simp [alLookup, subKey]
  have h := subscription_set_semantics [("amp1.vol_changed", [7])]
    "amp1" "vol_changed" 7 hnd
  exact ⟨hnd, h.1, hs, rfl, h.2 [7] hs rfl⟩

/-- C4 evaluated at the failing input: two distinct device objects with
the same identifier `"amp1"` hash alike, yet `device in self.devices`
is `False` for the second (Python's default `__eq__` is object identity
and the `@device` decorator installs only `__hash__`), so both
registrations succeed and the registry ends up holding two devices with
identifier `"amp1"` — no duplicate error is raised. -/
theorem duplicate_identifier_not_rejected :
    deviceHash (Device.mk 1 "amp1" true) = deviceHash (Device.mk 2 "amp1" true)
    ∧ pySetContains [Device.mk 1 "amp1" true] (Device.mk 2 "amp1" true) = false
    ∧ register_device [] (Device.mk 1 "amp1" true)
      = (none, [Device.mk 1 "amp1" true])
    ∧ register_device [Device.mk 1 "amp1" true] (Device.mk 2 "amp1" true)
      = (none, [Device.mk 1 "amp1" true, Device.mk 2 "amp1" true])
    ∧ ((register_device [Device.mk 1 "amp1" true]
          (Device.mk 2 "amp1" true)).2.countP
        (fun x => x.identifier == "amp1")) = 2 := by
  decide

/-- C5 counterexample: the identifier `"_"` matches `^[A-Za-z0-9_]+$`,
yet `register_device` rejects it with the invalid-identifier error,
because `"_".replace("_", "")` is empty and `"".isalnum()` is `False`. -/
theorem underscore_identifier_rejected :
    matchesIdentRegex "_" = true
    ∧ register_device [] (Device.mk 1 "_" true)
      = (some RegisterError.invalidIdentifier, []) := by
  decide

/-- Filtering out underscores and asking all-alphanumeric is the same as
asking every character to be alphanumeric-or-underscore. -/
theorem filter_all_alnum (l : List Char) :
    (l.filter (fun c => c != '_')).all Char.isAlphanum
      = l.all (fun c => c.isAlphanum || c == '_') := by
  induction l with
  | nil => rfl
  | cons c cs ih =>
    by_cases h : c = '_'
    · subst h
      simp [ih]
    · have hb : (c == '_') = false := by simp [h]
      simp [List.filter_cons, h, ih, hb]

/-- The underscore-free part of a list is empty iff no character differs
from underscore. -/
theorem filter_isEmpty_any (l : List Char) (p : Char → Bool) :
    (l.filter p).isEmpty = !l.any p := by
  induction l with
  | nil => rfl
  | cons c cs ih =>
    cases h : p c
    · simp [List.filter_cons, h, ih]
    · simp [List.filter_cons, h]

/-- `identifier.replace("_", "").isalnum()` succeeds exactly when the
identifier matches the spec's regex `^[A-Za-z0-9_]+$` *and* contains at
least one character other than `'_'`. -/
theorem isalnum_replace_iff (s : String) :
    pyIsalnum (pyReplaceUnderscore s) = true
      ↔ (matchesIdentRegex s = true
          ∧ s.data.any (fun c => c != '_') = true) := by
  have heq : pyIsalnum (pyReplaceUnderscore s)
      = (s.data.any (fun c => c != '_')
        && s.data.all (fun c => c.isAlphanum || c == '_')) := by
    show (!(s.data.filter (fun c => c != '_')).isEmpty
        && (s.data.filter (fun c => c != '_')).all Char.isAlphanum)
      = (s.data.any (fun c => c != '_')
        && s.data.all (fun c => c.isAlphanum || c == '_'))
    rw [filter_isEmpty_any, Bool.not_not, filter_all_alnum]
  rw [heq]
  simp only [matchesIdentRegex, Bool.and_eq_true, Bool.not_eq_true']
  constructor
  · rintro ⟨hany, hall⟩
    refine ⟨⟨?_, hall⟩, hany⟩
    cases hl : s.data with
    | nil => rw [hl] at hany; exact absurd hany (by simp)
    | cons a as => simp
  · rintro ⟨⟨_, hall⟩, hany⟩
    exact ⟨hany, hall⟩

/-- C5 as amended, for identifiers made of ASCII characters — the
scope on which the embedded `pyIsalnum` provably coincides with
CPython's `str.isalnum` (on non-ASCII identifiers CPython accepts
further Unicode alphanumerics that the spec's regex rejects, so the
claimed equivalence cannot hold beyond ASCII): with the protocol check
passed, `register_device` rejects the identifier with the
invalid-identifier error exactly when it fails to match
`^[A-Za-z0-9_]+$` *or* consists entirely of underscores (i.e.
acceptance requires the regex plus at least one non-underscore
character); and on any registration failure the registry is
unchanged. -/
theorem register_identifier_validation (devices : List Device) (d : Device)
    (hp : d.adheresProtocol = true)
    (hascii : ∀ c ∈ d.identifier.data, c.toNat < 128) :
    ((register_device devices d).1 = some RegisterError.invalidIdentifier
      ↔ ¬(matchesIdentRegex d.identifier = true
          ∧ d.identifier.data.any (fun c => c != '_') = true))
    ∧ (∀ e, (register_device devices d).1 = some e
        → (register_device devices d).2 = devices) := by
  have hiff := isalnum_replace_iff d.identifier
  have hinv : (register_device devices d).1
      = some RegisterError.invalidIdentifier
      ↔ pyIsalnum (pyReplaceUnderscore d.identifier) = false := by
    by_cases hv : pyIsalnum (pyReplaceUnderscore d.identifier) = true
    · by_cases hdup : pySetContains devices d = true <;>
        simp [register_device, hp, hv, hdup]
    · have hv2 : pyIsalnum (pyReplaceUnderscore d.identifier) = false := by
        cases hb : pyIsalnum (pyReplaceUnderscore d.identifier)
        · rfl
        · exact absurd hb hv
      simp [register_device, hp, hv2]
  constructor
  · rw [hinv]
    constructor
    · intro hfalse hconj
      rw [hiff.mpr hconj] at hfalse
      exact Bool.noConfusion hfalse
    · intro hneg
      cases hb : pyIsalnum (pyReplaceUnderscore d.identifier)
      · rfl
      · exact absurd (hiff.mp hb) hneg
  · intro e he
    by_cases hv : pyIsalnum (pyReplaceUnderscore d.identifier) = true
    · by_cases hdup : pySetContains devices d = true
      · simp [register_device, hp, hv, hdup]
      · simp [register_device, hp, hv, hdup] at he
    · have hv2 : pyIsalnum (pyReplaceUnderscore d.identifier) = false := by
        cases hb : pyIsalnum (pyReplaceUnderscore d.identifier)
        · rfl
        · exact absurd hb hv
      simp [register_device, hp, hv2]

/-- Witness for `register_identifier_validation`: the ASCII identifier
`"amp!"` fails the regex and is rejected, leaving the registry
unchanged. -/
theorem register_identifier_validation_witness :
    ((Device.mk 1 "amp!" true).adheresProtocol = true)
    ∧ (∀ c ∈ "amp!".data, c.toNat < 128)
    ∧ ((register_device [] (Device.mk 1 "amp!" true)).1
        = some RegisterError.invalidIdentifier
      ↔ ¬(matchesIdentRegex "amp!" = true
          ∧ ("amp!".data.any (fun c => c != '_')) = true))
    ∧ ((register_device [] (Device.mk 1 "amp!" true)).1
        = some RegisterError.invalidIdentifier)
    ∧ ((register_device [] (Device.mk 1 "amp!" true)).2 = []) := by
  have h := register_identifier_validation [] (Device.mk 1 "amp!" true) rfl
    (by decide)
  refine ⟨rfl, by decide, h.1, ?_, ?_⟩
  · decide
  · exact h.2 RegisterError.invalidIdentifier (by decide)

end Comando
